import Mathlib

/-!
Shallow embedding of the Resume Builder PDF pipeline (src/script.js).

JavaScript numbers are modelled exactly over the rationals; the arithmetic
performed by the source on the inputs appearing in the claims is exact, so
the rational model coincides with the source computation there.
-/

namespace ResumeBuilder

/-- A rasterized bitmap as produced by html2canvas in generatePDF
(src/script.js lines 799-809): its pixel width and pixel height. -/
structure Canvas where
  width : ℚ
  height : ℚ
deriving DecidableEq

/-- One emitted output page: the band of the source bitmap it draws
(sourceY, sourceHeight, as in the drawImage call of handleMultiPagePDF,
lines 937-941) and the destination rectangle handed to pdf.addImage. -/
structure PageOut where
  sourceY : ℚ
  sourceHeight : ℚ
  destX : ℚ
  destY : ℚ
  destW : ℚ
  destH : ℚ
deriving DecidableEq

/-- handleMultiPagePDF (src/script.js lines 914-946): computes
imgHeight = canvas.height * imgWidth / canvas.width with imgWidth = pageWidth,
totalPages = Math.ceil(imgHeight / pageHeight), and for page = 0,...,
totalPages-1 draws the band starting at page * (canvas.height / totalPages)
of height canvas.height / totalPages onto a fresh page of size
imgWidth by pageHeight, in ascending page order. -/
def handleMultiPagePDF (canvas : Canvas) (pageWidth pageHeight : ℚ) : List PageOut :=
  let imgWidth := pageWidth
  let imgHeight := canvas.height * imgWidth / canvas.width
  let totalPages : ℤ := ⌈imgHeight / pageHeight⌉
  (List.range totalPages.toNat).map fun (page : ℕ) =>
    { sourceY := (page : ℚ) * (canvas.height / (totalPages : ℚ))
      sourceHeight := canvas.height / (totalPages : ℚ)
      destX := 0
      destY := 0
      destW := imgWidth
      destH := pageHeight }

/-- The page-assembly decision of generatePDF (src/script.js lines 822-835),
with the page geometry of the source (pageWidth = 210, pageHeight = 297)
kept as the parameters they are bound to: imgWidth = pageWidth,
imgHeight = (canvas.height * imgWidth) / canvas.width; if
imgHeight <= pageHeight a single page holding the whole bitmap at
width imgWidth and height imgHeight is emitted, otherwise
handleMultiPagePDF is invoked. -/
def assemblePages (canvas : Canvas) (pageWidth pageHeight : ℚ) : List PageOut :=
  let imgWidth := pageWidth
  let imgHeight := canvas.height * imgWidth / canvas.width
  if imgHeight ≤ pageHeight then
    [{ sourceY := 0
       sourceHeight := canvas.height
       destX := 0
       destY := 0
       destW := imgWidth
       destH := imgHeight }]
  else
    handleMultiPagePDF canvas pageWidth pageHeight

/-- generatePDF instantiated at the A4 geometry hard-coded in the source
(lines 822-823): pageWidth = 210, pageHeight = 297 millimetres. -/
def generatePDFPages (canvas : Canvas) : List PageOut :=
  assemblePages canvas 210 297

/-- When the scaled image overflows the page, the ceiling count is at least two. -/
theorem totalPages_pos (canvas : Canvas) (pageWidth pageHeight : ℚ)
    (hph : 0 < pageHeight)
    (hover : pageHeight < canvas.height * pageWidth / canvas.width) :
    0 < ⌈canvas.height * pageWidth / canvas.width / pageHeight⌉ := by
  have h1 : (1 : ℚ) < canvas.height * pageWidth / canvas.width / pageHeight :=
    (one_lt_div hph).mpr hover
  have h2 : (1 : ℚ) ≤ (⌈canvas.height * pageWidth / canvas.width / pageHeight⌉ : ℚ) :=
    le_trans h1.le (Int.le_ceil _)
  exact_mod_cast lt_of_lt_of_le zero_lt_one h2

/-- C1: for a bitmap whose scaled height pageWidth * pixelHeight / pixelWidth
exceeds the page height, handleMultiPagePDF emits exactly
ceil(scaledHeight / pageHeight) pages; page i draws the band with
sourceY = i * (canvas.height / totalPages) and
sourceHeight = canvas.height / totalPages (equal-height pixel bands), and
the bands appear in ascending order of their source offset. -/
theorem multiPage_equal_bands (canvas : Canvas) (pageWidth pageHeight : ℚ)
    (hph : 0 < pageHeight) (hh : 0 < canvas.height)
    (hover : pageHeight < canvas.height * pageWidth / canvas.width) :
    (handleMultiPagePDF canvas pageWidth pageHeight).length
        = (⌈canvas.height * pageWidth / canvas.width / pageHeight⌉).toNat
    ∧ (∀ i (hi : i < (handleMultiPagePDF canvas pageWidth pageHeight).length),
        (handleMultiPagePDF canvas pageWidth pageHeight).get ⟨i, hi⟩ =
          { sourceY := (i : ℚ) *
              (canvas.height / ((⌈canvas.height * pageWidth / canvas.width / pageHeight⌉ : ℤ) : ℚ))
            sourceHeight :=
              canvas.height / ((⌈canvas.height * pageWidth / canvas.width / pageHeight⌉ : ℤ) : ℚ)
            destX := 0
            destY := 0
            destW := pageWidth
            destH := pageHeight })
    ∧ (∀ i j (hi : i < (handleMultiPagePDF canvas pageWidth pageHeight).length)
          (hj : j < (handleMultiPagePDF canvas pageWidth pageHeight).length), i < j →
        ((handleMultiPagePDF canvas pageWidth pageHeight).get ⟨i, hi⟩).sourceY
          < ((handleMultiPagePDF canvas pageWidth pageHeight).get ⟨j, hj⟩).sourceY) := by
  have hT : 0 < ⌈canvas.height * pageWidth / canvas.width / pageHeight⌉ :=
    totalPages_pos canvas pageWidth pageHeight hph hover
  have hTQ : (0 : ℚ) < ((⌈canvas.height * pageWidth / canvas.width / pageHeight⌉ : ℤ) : ℚ) := by
    exact_mod_cast hT
  refine ⟨?_, ?_, ?_⟩
  · simp [handleMultiPagePDF]
  · intro i hi
    simp only [handleMultiPagePDF, List.get_eq_getElem, List.getElem_map, List.getElem_range]
  · intro i j hi hj hij
    simp only [handleMultiPagePDF, List.get_eq_getElem, List.getElem_map, List.getElem_range]
    have hband : (0 : ℚ) < canvas.height /
        ((⌈canvas.height * pageWidth / canvas.width / pageHeight⌉ : ℤ) : ℚ) :=
      div_pos hh hTQ
    have hc : (i : ℚ) < (j : ℚ) := by exact_mod_cast hij
    exact mul_lt_mul_of_pos_right hc hband

/-- C1 witness: a 100 by 400 bitmap against a 210 by 297 page scales to
height 840 > 297 and is cut into ceil(840/297) = 3 equal bands. -/
theorem multiPage_equal_bands_witness :
    (handleMultiPagePDF ⟨100, 400⟩ 210 297).length
      = (⌈(⟨100, 400⟩ : Canvas).height * 210 / (⟨100, 400⟩ : Canvas).width / 297⌉).toNat :=
  (multiPage_equal_bands ⟨100, 400⟩ 210 297
    (show (0 : ℚ) < 297 by norm_num)
    (show (0 : ℚ) < 400 by norm_num)
    (show (297 : ℚ) < 400 * 210 / 100 by norm_num)).1

/-- C2: when the scaled image height canvas.height * pageWidth / canvas.width
is at most the page height, generatePDF bypasses handleMultiPagePDF and emits
exactly one page holding the whole bitmap, placed at full page width and its
aspect-preserving height. -/
theorem singlePage_shortCircuit (canvas : Canvas) (pageWidth pageHeight : ℚ)
    (hfit : canvas.height * pageWidth / canvas.width ≤ pageHeight) :
    assemblePages canvas pageWidth pageHeight =
      [{ sourceY := 0
         sourceHeight := canvas.height
         destX := 0
         destY := 0
         destW := pageWidth
         destH := canvas.height * pageWidth / canvas.width }] := by
  unfold assemblePages
  simp only [if_pos hfit]

/-- C2 witness: a square 100 by 100 bitmap scales to height 210 <= 297 and
produces exactly the single full-width page. -/
theorem singlePage_shortCircuit_witness :
    assemblePages ⟨100, 100⟩ 210 297 =
      [{ sourceY := 0
         sourceHeight := 100
         destX := 0
         destY := 0
         destW := 210
         destH := (⟨100, 100⟩ : Canvas).height * 210 / (⟨100, 100⟩ : Canvas).width }] :=
  singlePage_shortCircuit ⟨100, 100⟩ 210 297
    (show (100 : ℚ) * 210 / 100 ≤ 297 by norm_num)

/-- When the scaled image height is exactly k times the page height,
the page count computed by handleMultiPagePDF is exactly k. -/
theorem totalPages_of_exact_multiple (canvas : Canvas) (pageWidth pageHeight : ℚ) (k : ℕ)
    (hph : 0 < pageHeight)
    (heq : canvas.height * pageWidth / canvas.width = (k : ℚ) * pageHeight) :
    ⌈canvas.height * pageWidth / canvas.width / pageHeight⌉ = (k : ℤ) := by
  rw [heq, mul_div_assoc, div_self (ne_of_gt hph), mul_one, Int.ceil_natCast]

/-- C8: for a bitmap whose scaled image height equals k * pageHeight with
k > 1, handleMultiPagePDF produces exactly k slices; slice i has height
canvas.height / k and offset i * (canvas.height / k); the offsets are
strictly increasing, the slice heights sum to canvas.height, and the last
slice's offset plus its height equals canvas.height, so the slices
partition the bitmap with no gap and no overlap. -/
theorem paginate_exact_multiple (canvas : Canvas) (pageWidth pageHeight : ℚ) (k : ℕ)
    (hk : 1 < k) (hph : 0 < pageHeight) (hh : 0 < canvas.height)
    (heq : canvas.height * pageWidth / canvas.width = (k : ℚ) * pageHeight) :
    (handleMultiPagePDF canvas pageWidth pageHeight).length = k
    ∧ (∀ i (hi : i < (handleMultiPagePDF canvas pageWidth pageHeight).length),
        (handleMultiPagePDF canvas pageWidth pageHeight).get ⟨i, hi⟩ =
          { sourceY := (i : ℚ) * (canvas.height / (k : ℚ))
            sourceHeight := canvas.height / (k : ℚ)
            destX := 0
            destY := 0
            destW := pageWidth
            destH := pageHeight })
    ∧ (∀ i j (hi : i < (handleMultiPagePDF canvas pageWidth pageHeight).length)
          (hj : j < (handleMultiPagePDF canvas pageWidth pageHeight).length), i < j →
        ((handleMultiPagePDF canvas pageWidth pageHeight).get ⟨i, hi⟩).sourceY
          < ((handleMultiPagePDF canvas pageWidth pageHeight).get ⟨j, hj⟩).sourceY)
    ∧ ((handleMultiPagePDF canvas pageWidth pageHeight).map
          (fun s => s.sourceHeight)).sum = canvas.height
    ∧ (∀ hlast : k - 1 < (handleMultiPagePDF canvas pageWidth pageHeight).length,
        ((handleMultiPagePDF canvas pageWidth pageHeight).get ⟨k - 1, hlast⟩).sourceY
          + ((handleMultiPagePDF canvas pageWidth pageHeight).get ⟨k - 1, hlast⟩).sourceHeight
          = canvas.height) := by
  have hT : ⌈canvas.height * pageWidth / canvas.width / pageHeight⌉ = (k : ℤ) :=
    totalPages_of_exact_multiple canvas pageWidth pageHeight k hph heq
  have hk0 : (k : ℚ) ≠ 0 := by
    have : 0 < k := lt_trans Nat.zero_lt_one hk
    exact_mod_cast this.ne'
  have hlen : (handleMultiPagePDF canvas pageWidth pageHeight).length = k := by
    simp [handleMultiPagePDF, hT]
  have hget : ∀ i (hi : i < (handleMultiPagePDF canvas pageWidth pageHeight).length),
      (handleMultiPagePDF canvas pageWidth pageHeight).get ⟨i, hi⟩ =
        { sourceY := (i : ℚ) * (canvas.height / (k : ℚ))
          sourceHeight := canvas.height / (k : ℚ)
          destX := 0
          destY := 0
          destW := pageWidth
          destH := pageHeight } := by
    intro i hi
    simp only [handleMultiPagePDF, List.get_eq_getElem, List.getElem_map, List.getElem_range, hT,
      Int.cast_natCast]
  refine ⟨hlen, hget, ?_, ?_, ?_⟩
  · intro i j hi hj hij
    rw [hget i hi, hget j hj]
    have hband : (0 : ℚ) < canvas.height / (k : ℚ) := by
      apply div_pos hh
      exact lt_of_le_of_ne (by positivity) (Ne.symm hk0)
    have hc : (i : ℚ) < (j : ℚ) := by exact_mod_cast hij
    exact mul_lt_mul_of_pos_right hc hband
  · have hrepl : (handleMultiPagePDF canvas pageWidth pageHeight).map
        (fun s => s.sourceHeight) = List.replicate k (canvas.height / (k : ℚ)) := by
      refine List.eq_replicate_iff.mpr ⟨by simp [hlen], ?_⟩
      intro b hb
      simp only [handleMultiPagePDF, List.map_map, List.mem_map, List.mem_range, hT,
        Int.cast_natCast, Function.comp] at hb
      obtain ⟨a, _, ha⟩ := hb
      exact ha.symm
    rw [hrepl, List.sum_replicate, nsmul_eq_mul, mul_div_cancel₀ _ hk0]
  · intro hlast
    rw [hget (k - 1) hlast]
    have hcast : ((k - 1 : ℕ) : ℚ) = (k : ℚ) - 1 := by
      have : (1 : ℕ) ≤ k := le_of_lt hk
      push_cast [this]
      ring
    rw [hcast]
    have : ((k : ℚ) - 1) * (canvas.height / (k : ℚ)) + canvas.height / (k : ℚ)
        = (k : ℚ) * (canvas.height / (k : ℚ)) := by ring
    rw [this, mul_div_cancel₀ _ hk0]

/-- C8 witness: a 100 by 300 bitmap against page width 210 and page height
315 scales to height 630 = 2 * 315, and is cut into exactly 2 slices. -/
theorem paginate_exact_multiple_witness :
    (handleMultiPagePDF ⟨100, 300⟩ 210 315).length = 2 :=
  (paginate_exact_multiple ⟨100, 300⟩ 210 315 2
    (by norm_num)
    (show (0 : ℚ) < 315 by norm_num)
    (show (0 : ℚ) < 300 by norm_num)
    (show (300 : ℚ) * 210 / 100 = (2 : ℕ) * 315 by norm_num)).1

/-- Inline style of one content block (.content-block and variants),
as touched by adjustTemplateForContent lines 888-892. -/
structure BlockStyle where
  margin : Option String := none
  fontSize : Option String := none
deriving DecidableEq

/-- Inline style of the embedded photo element (.pdf-photo and variants),
as touched by adjustTemplateForContent lines 895-899. -/
structure PhotoStyle where
  width : Option String := none
  height : Option String := none
deriving DecidableEq

/-- The presentation state of the off-screen template surface that
adjustTemplateForContent mutates: the compact class, the root transform
and logical-box styles, the content blocks and the optional photo. -/
structure Surface where
  compact : Bool := false
  transformScale : Option ℚ := none
  transformOrigin : Option String := none
  widthPercent : Option ℚ := none
  heightPercent : Option ℚ := none
  blocks : List BlockStyle := []
  photo : Option PhotoStyle := none
deriving DecidableEq

/-- The fixed page height in pixels used by adjustTemplateForContent
(src/script.js line 865): 297 * 3.77953. -/
def pageHeightPx : ℚ := 297 * (377953 / 100000)

/-- adjustTemplateForContent (src/script.js lines 862-905), with the
measured scrollHeight and the locally bound page height as parameters:
computes the overflow ratio contentHeight / pageHeight; above 1.1 adds the
compact class; above 1.6 additionally sets a scale transform of
max(0.75, 1 / ratio) with origin top left and enlarges width and height to
100 / scaleFactor percent; above 2.0 additionally sets margin 2px 0 and
font size 9px on every content block and forces the photo to 50px by 50px.
The source then waits 150ms for reflow and returns; it has no failure path. -/
def adjustTemplateForContent (contentHeight pageHeight : ℚ) (t : Surface) : Surface :=
  let r := contentHeight / pageHeight
  if 11 / 10 < r then
    let t1 := { t with compact := true }
    let t2 :=
      if 8 / 5 < r then
        let scaleFactor := max (3 / 4) (1 / r)
        { t1 with
            transformScale := some scaleFactor
            transformOrigin := some ("top left")
            widthPercent := some (100 / scaleFactor)
            heightPercent := some (100 / scaleFactor) }
      else t1
    if 2 < r then
      { t2 with
          blocks := t2.blocks.map fun s =>
            { s with margin := some ("2px 0"), fontSize := some ("9px") }
          photo := t2.photo.map fun p =>
            { p with width := some ("50px"), height := some ("50px") } }
    else t2
  else t

/-- C3: the three compaction tiers are cumulative in the overflow ratio:
no transform at ratio <= 1.1; compact class above 1.1 (and nothing more up
to 1.6); additionally the uniform scale max(0.75, 1/ratio) anchored top
left with the logical box enlarged by its inverse above 1.6 (and no block
or photo compaction up to 2.0); additionally block spacing and font-size
reduction and the fixed 50px photo square above 2.0. The operation is a
total function, so it always returns. -/
theorem contentFitter_tiers (ch ph : ℚ) (t : Surface) :
    (¬ 11 / 10 < ch / ph → adjustTemplateForContent ch ph t = t)
    ∧ (11 / 10 < ch / ph → (adjustTemplateForContent ch ph t).compact = true)
    ∧ (11 / 10 < ch / ph ∧ ¬ 8 / 5 < ch / ph →
        adjustTemplateForContent ch ph t = { t with compact := true })
    ∧ (8 / 5 < ch / ph →
        (adjustTemplateForContent ch ph t).transformScale
            = some (max (3 / 4) (1 / (ch / ph)))
        ∧ (adjustTemplateForContent ch ph t).transformOrigin = some ("top left")
        ∧ (adjustTemplateForContent ch ph t).widthPercent
            = some (100 / max (3 / 4) (1 / (ch / ph)))
        ∧ (adjustTemplateForContent ch ph t).heightPercent
            = some (100 / max (3 / 4) (1 / (ch / ph))))
    ∧ (8 / 5 < ch / ph ∧ ¬ 2 < ch / ph →
        (adjustTemplateForContent ch ph t).blocks = t.blocks
        ∧ (adjustTemplateForContent ch ph t).photo = t.photo)
    ∧ (2 < ch / ph →
        (adjustTemplateForContent ch ph t).blocks
            = t.blocks.map (fun s => { s with margin := some ("2px 0"), fontSize := some ("9px") })
        ∧ (adjustTemplateForContent ch ph t).photo
            = t.photo.map (fun p => { p with width := some ("50px"), height := some ("50px") })) := by
  refine ⟨?_, ?_, ?_, ?_, ?_, ?_⟩
  · intro h1
    simp [adjustTemplateForContent, h1]
  · intro h1
    by_cases h2 : 8 / 5 < ch / ph <;> by_cases h3 : 2 < ch / ph <;>
      simp [adjustTemplateForContent, h1, h2, h3]
  · rintro ⟨h1, h2⟩
    have h3 : ¬ 2 < ch / ph := fun hc => h2 (lt_trans (by norm_num) hc)
    simp [adjustTemplateForContent, h1, h2, h3]
  · intro h2
    have h1 : 11 / 10 < ch / ph := lt_trans (by norm_num) h2
    by_cases h3 : 2 < ch / ph <;>
      simp [adjustTemplateForContent, h1, h2, h3]
  · rintro ⟨h2, h3⟩
    have h1 : 11 / 10 < ch / ph := lt_trans (by norm_num) h2
    simp [adjustTemplateForContent, h1, h2, h3]
  · intro h3
    have h2 : 8 / 5 < ch / ph := lt_trans (by norm_num) h3
    have h1 : 11 / 10 < ch / ph := lt_trans (by norm_num) h2
    simp [adjustTemplateForContent, h1, h2, h3]

/-- C3 witness: at content height 1000 and page height 1000 (ratio 1) the
fitter leaves the default surface unchanged. -/
theorem contentFitter_tiers_witness :
    adjustTemplateForContent 1000 1000 {} = ({} : Surface) :=
  (contentFitter_tiers 1000 1000 {}).1 (by norm_num)

/-- C9: the fitter is idempotent: re-invoking it with the same measured
content height and page height leaves the surface produced by the first
invocation unchanged, for every starting surface. -/
theorem contentFitter_idempotent (ch ph : ℚ) (t : Surface) :
    adjustTemplateForContent ch ph (adjustTemplateForContent ch ph t)
      = adjustTemplateForContent ch ph t := by
  by_cases h1 : 11 / 10 < ch / ph <;>
  by_cases h2 : 8 / 5 < ch / ph <;>
  by_cases h3 : 2 < ch / ph <;>
    simp [adjustTemplateForContent, h1, h2, h3, List.map_map, Option.map_map, Function.comp_def]

/-- A concrete starting surface with one content block and a photo,
used to evaluate the fitter at the scenario of the spec. -/
def demoSurface : Surface :=
  { compact := false
    transformScale := none
    transformOrigin := none
    widthPercent := none
    heightPercent := none
    blocks := [{ margin := none, fontSize := none }]
    photo := some { width := none, height := none } }

/-- C4 counterexample: at content height 2100 and page height 1000
(overflow ratio 2.1) the scale factor the code applies is
max(0.75, 1/2.1) = 3/4 = 0.75; it is not approximately 0.476 — it differs
from 0.476 by more than one quarter, because the max clamps 1/2.1 up
to 0.75. -/
theorem scenario3_scale_is_075 :
    (adjustTemplateForContent 2100 1000 demoSurface).transformScale = some (3 / 4)
    ∧ (1 / 4 : ℚ) < 3 / 4 - 476 / 1000 := by
  constructor
  · have h1 : (11 / 10 : ℚ) < 2100 / 1000 := by norm_num
    have h2 : (8 / 5 : ℚ) < 2100 / 1000 := by norm_num
    have h3 : (2 : ℚ) < 2100 / 1000 := by norm_num
    simp only [adjustTemplateForContent, h1, h2, h3, if_true, if_pos]
    rw [max_eq_left (by norm_num)]
  · norm_num

/-- C4 amended: at content height 2100 and page height 1000 (ratio 2.1)
all three compaction tiers are applied, and the uniform scale factor
applied in tier 2 equals max(0.75, 1/2.1), which is 0.75 (not 0.476). -/
theorem scenario3_all_tiers (t : Surface) :
    (adjustTemplateForContent 2100 1000 t).compact = true
    ∧ (adjustTemplateForContent 2100 1000 t).transformScale
        = some (max (3 / 4) (1 / (2100 / 1000)))
    ∧ max (3 / 4 : ℚ) (1 / (2100 / 1000)) = 3 / 4
    ∧ (adjustTemplateForContent 2100 1000 t).blocks
        = t.blocks.map (fun s => { s with margin := some ("2px 0"), fontSize := some ("9px") })
    ∧ (adjustTemplateForContent 2100 1000 t).photo
        = t.photo.map (fun p => { p with width := some ("50px"), height := some ("50px") }) := by
  have h1 : (11 / 10 : ℚ) < 2100 / 1000 := by norm_num
  have h2 : (8 / 5 : ℚ) < 2100 / 1000 := by norm_num
  have h3 : (2 : ℚ) < 2100 / 1000 := by norm_num
  have hmax : max (3 / 4 : ℚ) (1 / (2100 / 1000)) = 3 / 4 := by
    rw [max_eq_left]
    norm_num
  refine ⟨?_, ?_, hmax, ?_, ?_⟩ <;>
    simp [adjustTemplateForContent, h1, h2, h3]

/-- The kind of a user-visible notice shown through showMessage
(src/script.js lines 1236-1252). -/
inductive MsgKind
  | success
  | error
  | warning
  | info
deriving DecidableEq

/-- A user-visible notice: its text and its kind. -/
structure Message where
  text : String
  kind : MsgKind
deriving DecidableEq

/-- The user-interface state touched by a generation cycle: the
isGenerating flag, the loading indicator, the display state of the
off-screen template surface, and the message container (showMessage
overwrites its content, so only the last notice is visible). -/
structure AppState where
  isGenerating : Bool
  loadingShown : Bool
  templateShown : Bool
  lastMessage : Option Message
deriving DecidableEq

/-- The page in its idle state: nothing in flight, loading hidden,
template surfaces hidden by the stylesheet, no notice shown. -/
def idleState : AppState :=
  { isGenerating := false
    loadingShown := false
    templateShown := false
    lastMessage := none }

/-- The failure points of one generation cycle, in the order generatePDF
reaches them: populateTemplate can throw (line 778 calling 952-1071), the
template element lookup can fail (lines 781-784), and html2canvas can
throw (lines 799-809). The steps after rasterization are modelled as
succeeding. -/
structure GenEnv where
  populateOk : Bool
  templateFound : Bool
  rasterOk : Bool
deriving DecidableEq

/-- Outcome of generatePDF: whether it returned normally, and the final
user-interface state (on failure it rethrows after its catch and finally
blocks have run). -/
structure GenResult where
  ok : Bool
  state : AppState
deriving DecidableEq

/-- The notice shown by the catch block of generatePDF (line 850). -/
def pdfFailMessage : Message :=
  { text := "Failed to generate PDF. Please try again.", kind := .error }

/-- The finally block of generatePDF (lines 852-855): reset isGenerating
and hide the loading indicator. It does not touch the template surface. -/
def generatePDFFinally (st : AppState) : AppState :=
  { st with isGenerating := false, loadingShown := false }

/-- The catch block of generatePDF (lines 848-851) followed by its finally
block: show the failure notice, run the finally block, rethrow. -/
def generatePDFCatch (st : AppState) : GenResult :=
  { ok := false
    state := generatePDFFinally { st with lastMessage := some pdfFailMessage } }

/-- generatePDF (src/script.js lines 772-856) as a transition on the
user-interface state: set isGenerating and show the loading indicator;
populate the template (may throw); look the template element up (may be
missing); show the template surface; rasterize (may throw) — note the
surface is hidden again (line 812) only after html2canvas returns;
assemble and save the document; show the success notice; and in every
case run the finally block. -/
def generatePDFRun (env : GenEnv) (st0 : AppState) : GenResult :=
  let st := { st0 with isGenerating := true, loadingShown := true }
  if env.populateOk = false then
    generatePDFCatch st
  else if env.templateFound = false then
    generatePDFCatch st
  else
    let st := { st with templateShown := true }
    if env.rasterOk = false then
      generatePDFCatch st
    else
      let st := { st with templateShown := false }
      let successMsg : Message := { text := "Resume generated successfully!", kind := .success }
      let st := { st with lastMessage := some successMsg }
      { ok := true, state := generatePDFFinally st }

/-- C5 counterexample: when populate and template lookup succeed but
html2canvas throws, the cycle ends with the off-screen template surface
still shown: the hide on line 812 is skipped and neither the catch nor
the finally block of generatePDF hides it. -/
theorem template_left_shown_on_raster_throw :
    (generatePDFRun { populateOk := true, templateFound := true, rasterOk := false }
      idleState).state.templateShown = true := rfl

/-- C5 amended: starting from a hidden surface, the surface is back in the
hidden state at the end of the cycle on every exit path except a
rasterization throw: it ends shown exactly when populate and template
lookup succeed and html2canvas throws. -/
theorem template_hidden_unless_raster_throws (env : GenEnv) (st : AppState)
    (h : st.templateShown = false) :
    (generatePDFRun env st).state.templateShown = false
      ↔ ¬ (env.populateOk = true ∧ env.templateFound = true ∧ env.rasterOk = false) := by
  obtain ⟨p, tf, r⟩ := env
  cases p <;> cases tf <;> cases r <;>
    simp [generatePDFRun, generatePDFCatch, generatePDFFinally, h]

/-- C5 amended witness: a fully successful cycle from the idle state ends
with the surface hidden. -/
theorem template_hidden_unless_raster_throws_witness :
    (generatePDFRun { populateOk := true, templateFound := true, rasterOk := true }
      idleState).state.templateShown = false :=
  (template_hidden_unless_raster_throws
      { populateOk := true, templateFound := true, rasterOk := true } idleState rfl).mpr
    (by simp)

/-- C7: every failing generation cycle ends with the user-visible failure
notice of the catch block, the isGenerating flag reset to false and the
loading indicator hidden, so the system is back in the ready state and a
retry is immediately possible; the notice kind is error, so no failure is
silently swallowed. -/
theorem failure_paths_recover (env : GenEnv) (st : AppState)
    (h : (generatePDFRun env st).ok = false) :
    (generatePDFRun env st).state.lastMessage = some pdfFailMessage
    ∧ pdfFailMessage.kind = MsgKind.error
    ∧ (generatePDFRun env st).state.isGenerating = false
    ∧ (generatePDFRun env st).state.loadingShown = false := by
  obtain ⟨p, tf, r⟩ := env
  cases p <;> cases tf <;> cases r <;>
    simp_all [generatePDFRun, generatePDFCatch, generatePDFFinally, pdfFailMessage]

/-- C7 witness: a cycle in which populateTemplate throws ends with the
error notice shown, the flag reset and the loading indicator hidden. -/
theorem failure_paths_recover_witness :
    (generatePDFRun { populateOk := false, templateFound := true, rasterOk := true }
        idleState).state.lastMessage = some pdfFailMessage
    ∧ pdfFailMessage.kind = MsgKind.error
    ∧ (generatePDFRun { populateOk := false, templateFound := true, rasterOk := true }
        idleState).state.isGenerating = false
    ∧ (generatePDFRun { populateOk := false, templateFound := true, rasterOk := true }
        idleState).state.loadingShown = false :=
  failure_paths_recover
    { populateOk := false, templateFound := true, rasterOk := true } idleState rfl

/-- A cached DOM element, as far as the validation logic observes it:
its (input) value and its (checkbox) checked state. -/
structure DomElement where
  value : String := ""
  checked : Bool := false
deriving DecidableEq

/-- The DOM-element cache built by cacheElements (src/script.js lines
146-185), restricted to what validation reads. The checkbox references
includeExperience, includeProjects, includeCertificates and includeCustom
that isFieldRequired dereferences are represented as Option values:
cacheElements only ever stores includePhoto, so the others stay none
(reading a member absent from the cache object yields undefined). -/
structure Elements where
  includePhoto : Option DomElement
  includeExperience : Option DomElement
  includeProjects : Option DomElement
  includeCertificates : Option DomElement
  includeCustom : Option DomElement
  fields : String → Option DomElement

/-- The keys of the fields record built by cacheElements (lines 168-183);
each is looked up by the identically named element id. -/
def fieldIds : List String :=
  ["name", "email", "phone", "address", "about", "experience", "education", "skills",
   "strengths", "achievements", "projects", "certificates", "custom-title", "custom-content"]

/-- cacheElements (src/script.js lines 146-185) over an abstract DOM
(a map from element id to the element, none when absent): it stores
includePhoto from the include-photo element and the fields record, and
stores nothing under includeExperience, includeProjects,
includeCertificates or includeCustom — no line of cacheElements assigns
them, whatever the page contains. -/
def cacheElements (dom : String → Option DomElement) : Elements :=
  { includePhoto := dom ("include-photo")
    includeExperience := none
    includeProjects := none
    includeCertificates := none
    includeCustom := none
    fields := fun name => if name ∈ fieldIds then dom name else none }

/-- One entry of ValidationRules (src/script.js lines 35-112). A pattern
is a Boolean test on the value; a customValidator returns none when the
value passes and the error message when it does not (the source returns
true or a message string). -/
structure Rule where
  required : Bool
  minLength : Option Nat := none
  pattern : Option (String → Bool) := none
  customValidator : Option (String → Option String) := none
  message : String

/-- The name pattern of ValidationRules.name: one or more characters that
are letters, whitespace, apostrophes or hyphens. -/
def namePattern (s : String) : Bool :=
  !s.isEmpty && s.all fun c => c.isAlpha || c.isWhitespace || c = Char.ofNat 39 || c = '-'

/-- A character admissible on either side of the at sign in the email
pattern: anything except whitespace and the at sign itself. -/
def nonAtClass (c : Char) : Bool :=
  !c.isWhitespace && c ≠ '@'

/-- Whether the character list contains a dot that is neither its first
nor its last element. -/
def interiorDot : List Char → Bool
  | [] => false
  | _ :: rest => dotNotLast rest
where
  dotNotLast : List Char → Bool
    | [] => false
    | [_] => false
    | c :: rest => c = '.' || dotNotLast rest

/-- The email pattern of ValidationRules.email: one or more non-space
non-at characters, an at sign, then one or more such characters containing
a dot with at least one such character on each side. -/
def emailPattern (s : String) : Bool :=
  match s.splitOn ("@") with
  | [beforeAt, afterAt] =>
      !beforeAt.isEmpty && beforeAt.all nonAtClass &&
      !afterAt.isEmpty && afterAt.all nonAtClass && interiorDot afterAt.toList
  | _ => false

/-- A character of the phone character class: digits, whitespace,
parentheses and hyphens. -/
def phoneClass (c : Char) : Bool :=
  c.isDigit || c.isWhitespace || c = '(' || c = ')' || c = '-'

/-- The phone pattern of ValidationRules.phone: an optional leading plus
sign followed by at least ten characters of the phone class. -/
def phonePattern (s : String) : Bool :=
  let rest := if s.startsWith ("+") then s.drop 1 else s
  10 ≤ rest.length && rest.all phoneClass

/-- The customValidator of ValidationRules.skills (lines 75-79): an empty
trimmed value passes; otherwise the value split on commas, trimmed and
filtered of empties must hold at least two skills. -/
def skillsValidator (value : String) : Option String :=
  if value.trim = "" then none
  else
    let skills := ((value.splitOn (",")).map String.trim).filter fun s => 0 < s.length
    if 2 ≤ skills.length then none
    else some ("Please enter at least 2 skills separated by commas")

/-- ValidationRules (src/script.js lines 35-112), keyed by field name. -/
def validationRules : String → Option Rule
  | "name" =>
    some { required := true
           minLength := some 2
           pattern := some namePattern
           message := "Name must contain only letters, spaces, hyphens, and apostrophes" }
  | "email" =>
    some { required := true
           pattern := some emailPattern
           message := "Please enter a valid email address" }
  | "phone" =>
    some { required := true
           pattern := some phonePattern
           message := "Please enter a valid phone number (minimum 10 digits)" }
  | "address" =>
    some { required := true
           minLength := some 10
           message := "Address must be at least 10 characters" }
  | "about" =>
    some { required := false
           minLength := some 20
           message := "Professional summary should be at least 20 characters" }
  | "experience" =>
    some { required := false
           minLength := some 20
           message := "Experience should be at least 20 characters when provided" }
  | "education" =>
    some { required := false
           minLength := some 20
           message := "Education should be at least 20 characters when provided" }
  | "skills" =>
    some { required := false
           minLength := some 5
           customValidator := some skillsValidator
           message := "Please enter at least 2 skills separated by commas when provided" }
  | "strengths" =>
    some { required := false
           minLength := some 10
           message := "Strengths should be at least 10 characters when provided" }
  | "achievements" =>
    some { required := false
           minLength := some 10
           message := "Achievements should be at least 10 characters when provided" }
  | "projects" =>
    some { required := false
           minLength := some 10
           message := "Projects should be at least 10 characters when provided" }
  | "certificates" =>
    some { required := false
           minLength := some 10
           message := "Certificates should be at least 10 characters when provided" }
  | "custom-title" =>
    some { required := false
           minLength := some 2
           message := "Custom section title must be at least 2 characters" }
  | "custom-content" =>
    some { required := false
           minLength := some 5
           message := "Custom section content should be at least 5 characters when provided" }
  | _ => none

/-- Reading the checked member of a cached checkbox reference: when the
reference is absent (undefined), the read throws a TypeError. -/
def checkedOf : Option DomElement → Except String Bool
  | none => Except.error "TypeError: Cannot read properties of undefined"
  | some e => Except.ok e.checked

/-- isFieldRequired (src/script.js lines 324-345): fields whose rule says
required are required; experience, projects, certificates and the two
custom fields consult the checked state of their include checkbox
reference — a read that throws when the reference was never cached. -/
def isFieldRequired (els : Elements) (fieldName : String) : Except String Bool :=
  match validationRules fieldName with
  | none => Except.ok false
  | some rules =>
    if rules.required then Except.ok true
    else
      match fieldName with
      | "experience" => checkedOf els.includeExperience
      | "projects" => checkedOf els.includeProjects
      | "certificates" => checkedOf els.includeCertificates
      | "custom-title" => checkedOf els.includeCustom
      | "custom-content" => checkedOf els.includeCustom
      | _ => Except.ok false

/-- validateField (src/script.js lines 260-317): missing element or
missing rule passes; then, inside the try block, the conditional-required
check runs first and any exception it throws is caught and reported as a
validation failure (return false); otherwise the required, emptiness,
minLength, pattern and customValidator checks run in source order on the
trimmed value. -/
def validateField (els : Elements) (fieldName : String) : Bool :=
  match els.fields fieldName with
  | none => true
  | some field =>
    match validationRules fieldName with
    | none => true
    | some rules =>
      let value := field.value.trim
      match isFieldRequired els fieldName with
      | .error _ => false
      | .ok isRequired =>
        if isRequired && value.isEmpty then false
        else if value.isEmpty && !isRequired then true
        else if (match rules.minLength with
                 | some m => decide (value.length < m)
                 | none => false) then false
        else if (match rules.pattern with
                 | some p => !p value
                 | none => false) then false
        else if (match rules.customValidator with
                 | some cv => (cv value).isSome
                 | none => false) then false
        else true

/-- validateAllFields (src/script.js lines 351-362): valid exactly when
every field of the cache validates. -/
def validateAllFields (els : Elements) : Bool :=
  fieldIds.all fun name => validateField els name

/-- The environment of one form submission: the generation failure points
plus whether collectFormData succeeds (it returns null on an internal
error, line 764). -/
structure SubmitEnv where
  gen : GenEnv
  collectOk : Bool
deriving DecidableEq

/-- Outcome of handleFormSubmission: the final user-interface state and
whether generatePDF was invoked at all. -/
structure SubmitResult where
  state : AppState
  invokedGeneration : Bool
deriving DecidableEq

/-- The notice shown when a submission arrives while a cycle is in
progress (src/script.js line 701). -/
def inProgressMessage : Message :=
  { text := "PDF generation already in progress", kind := .warning }

/-- handleFormSubmission (src/script.js lines 695-727): reject when a
cycle is in progress; reject when validation fails; reject when form-data
collection fails; otherwise run generatePDF, and on its rethrown failure
show the submission-level error notice and hide the loading indicator. -/
def handleFormSubmission (els : Elements) (env : SubmitEnv) (st : AppState) : SubmitResult :=
  if st.isGenerating then
    { state := { st with lastMessage := some inProgressMessage }
      invokedGeneration := false }
  else if validateAllFields els = false then
    let fixMsg : Message :=
      { text := "Please fix the errors above before generating your resume", kind := .error }
    { state := { st with lastMessage := some fixMsg }, invokedGeneration := false }
  else if env.collectOk = false then
    let collectMsg : Message := { text := "Failed to collect form data", kind := .error }
    { state := { st with lastMessage := some collectMsg }, invokedGeneration := false }
  else
    let g := generatePDFRun env.gen st
    if g.ok then
      { state := g.state, invokedGeneration := true }
    else
      let submitMsg : Message :=
        { text := "An error occurred while generating your resume. Please try again."
          kind := .error }
      { state := { g.state with lastMessage := some submitMsg, loadingShown := false }
        invokedGeneration := true }

/-- C6: a submission that arrives while isGenerating is set is rejected
synchronously: the only effect is the user-visible warning notice; the
generation pipeline is not invoked (not queued), and the isGenerating
flag, loading indicator and template surface of the in-flight cycle are
untouched. -/
theorem concurrent_request_rejected (els : Elements) (env : SubmitEnv) (st : AppState)
    (h : st.isGenerating = true) :
    handleFormSubmission els env st =
      { state := { st with lastMessage := some inProgressMessage }
        invokedGeneration := false } := by
  simp [handleFormSubmission, h]

/-- C6 witness: with an in-flight cycle, a concrete submission leaves the
state unchanged except for the warning notice and does not invoke
generation. -/
theorem concurrent_request_rejected_witness :
    handleFormSubmission (cacheElements fun _ => none)
        { gen := { populateOk := true, templateFound := true, rasterOk := true },
          collectOk := true }
        { idleState with isGenerating := true } =
      { state := { { idleState with isGenerating := true } with
          lastMessage := some inProgressMessage }
        invokedGeneration := false } :=
  concurrent_request_rejected (cacheElements fun _ => none)
    { gen := { populateOk := true, templateFound := true, rasterOk := true },
      collectOk := true }
    { idleState with isGenerating := true } rfl

/-- The five field names whose conditional-required check dereferences a
checkbox reference that cacheElements never stores. -/
def conditionalFieldIds : List String :=
  ["experience", "projects", "certificates", "custom-title", "custom-content"]

/-- A field whose conditional-required check throws is reported invalid by
validateField regardless of its value. -/
theorem validateField_false_of_required_error (els : Elements) (fieldName : String)
    (field : DomElement) (rules : Rule) (e : String)
    (hf : els.fields fieldName = some field)
    (hr : validationRules fieldName = some rules)
    (he : isFieldRequired els fieldName = Except.error e) :
    validateField els fieldName = false := by
  simp only [validateField, hf, hr, he]

/-- C10: for experience, projects, certificates, custom-title and
custom-content, validateField returns false whatever the DOM holds as the
field's value, because isFieldRequired dereferences the checked member of
a checkbox reference cacheElements never stores and the thrown error is
caught as a validation failure; consequently (whenever the experience
field element exists) validateAllFields never returns true, and no form
submission ever invokes the PDF generation pipeline. -/
theorem conditional_fields_unvalidatable (dom : String → Option DomElement) :
    (∀ name, name ∈ conditionalFieldIds → ∀ field,
        (cacheElements dom).fields name = some field →
        validateField (cacheElements dom) name = false)
    ∧ (∀ field, (cacheElements dom).fields ("experience") = some field →
        validateAllFields (cacheElements dom) = false
        ∧ ∀ env st, (handleFormSubmission (cacheElements dom) env st).invokedGeneration
            = false) := by
  have key : ∀ name, name ∈ conditionalFieldIds → ∀ field,
      (cacheElements dom).fields name = some field →
      validateField (cacheElements dom) name = false := by
    intro name hmem field hf
    have hmem5 : name = "experience" ∨ name = "projects" ∨ name = "certificates"
        ∨ name = "custom-title" ∨ name = "custom-content" := by
      simpa [conditionalFieldIds] using hmem
    rcases hmem5 with rfl | rfl | rfl | rfl | rfl
    · exact validateField_false_of_required_error _ _ field _ _ hf rfl rfl
    · exact validateField_false_of_required_error _ _ field _ _ hf rfl rfl
    · exact validateField_false_of_required_error _ _ field _ _ hf rfl rfl
    · exact validateField_false_of_required_error _ _ field _ _ hf rfl rfl
    · exact validateField_false_of_required_error _ _ field _ _ hf rfl rfl
  refine ⟨key, ?_⟩
  intro field hf
  have hexp : validateField (cacheElements dom) ("experience") = false :=
    key ("experience") (by simp [conditionalFieldIds]) field hf
  have hall : validateAllFields (cacheElements dom) = false := by
    cases hv : validateAllFields (cacheElements dom) with
    | false => rfl
    | true =>
      exfalso
      rw [validateAllFields] at hv
      have hmem : ("experience" : String) ∈ fieldIds := by simp [fieldIds]
      have htrue := List.all_eq_true.mp hv ("experience") hmem
      rw [hexp] at htrue
      exact Bool.false_ne_true htrue
  refine ⟨hall, ?_⟩
  intro env st
  by_cases hg : st.isGenerating = true
  · simp [handleFormSubmission, hg]
  · simp [handleFormSubmission, hg, hall]

/-- A concrete page DOM holding every element with an empty value and an
unchecked checkbox state. -/
def demoDom : String → Option DomElement :=
  fun _ => some { value := "", checked := false }

/-- C10 witness: on the concrete DOM, validateField rejects the
experience field. -/
theorem conditional_fields_unvalidatable_witness :
    validateField (cacheElements demoDom) ("experience") = false :=
  (conditional_fields_unvalidatable demoDom).1 ("experience")
    (by simp [conditionalFieldIds]) { value := "", checked := false } rfl

end ResumeBuilder
